import Mathlib

/-!
Shallow embedding of the blog post repository/service pair of the
apnaspace blog serverless service: the Mongo-backed blog repository
(src/api/v1/blog/repositories/blog.repository.ts together with the
schema of models/blog.model.ts) and the blog service
(src/api/v1/blog/services/blog.service.ts), with the entity and DTO
shapes they operate on (models/blog.entity.ts, models/blog.dto.ts).

Modelling conventions:
* Dates are epoch timestamps (`Nat`); every occurrence of `new Date()`
  in the source becomes an explicit `now : Nat` argument.
* The document store is the list of persisted posts (`Store`); Mongo
  object ids and user ids are `String`s.
* A thrown store-level error (the `catch` branch of a repository
  method) is modelled by an explicit `storeFail : Bool` argument on the
  operation that performs the store round trip; `storeFail = false` is
  the normal run.
* `findById` / `findBySlug` catch store errors and return `null`, which
  the caller cannot tell apart from absence, so they are modelled as
  total lookups (a failing lookup behaves as absence).
* The store-managed `updatedAt` audit timestamp is not modelled;
  `createdAt` is kept because it is the default sort key of `findAll`.
* The schema marks `slug` and `author` as `immutable: true`, so the
  ODM strips them from `$set` updates; `applyUpdate` reflects that.
-/

/-- Lifecycle status of a post (enum IBlogPostStatus). -/
inductive IBlogPostStatus where
  | draft
  | published
  | archived
  | scheduled
deriving DecidableEq, Repr

/-- Visibility of a post (enum IBlogPostVisibility); `priv` stands for
the source value "private". -/
inductive IBlogPostVisibility where
  | public
  | priv
  | unlisted
deriving DecidableEq, Repr

/-- One like entry: the liking user and the like timestamp. -/
structure IBlogLike where
  user : String
  likedAt : Nat
deriving DecidableEq, Repr

/-- Featured image block (interface IFeaturedImage). -/
structure IFeaturedImage where
  url : String
  alt : Option String
  caption : Option String
deriving DecidableEq, Repr

/-- SEO metadata block (interface IBlogSEO). -/
structure IBlogSEO where
  metaTitle : Option String
  metaDescription : Option String
  keywords : List String
  ogImage : Option String
deriving DecidableEq, Repr

/-- The persisted blog post entity (interface IBlogPostEntity plus the
store-managed `createdAt` timestamp). -/
structure IBlogPostEntity where
  id : String
  title : String
  slug : String
  content : String
  excerpt : Option String
  author : String
  category : String
  tags : List String
  featuredImage : Option IFeaturedImage
  status : IBlogPostStatus
  visibility : IBlogPostVisibility
  viewCount : Nat
  likes : List IBlogLike
  readTime : Nat
  seo : Option IBlogSEO
  publishedAt : Option Nat
  scheduledFor : Option Nat
  createdAt : Nat
deriving DecidableEq, Repr

/-- The document store: the collection of persisted posts. -/
abbrev Store : Type := List IBlogPostEntity

/-- Partial update payload (interface IUpdateBlogDto). Every field is
optional; a doubly-optional field can be set to null. The DTO does
include a `slug` field, but the schema declares slug immutable, so the
ODM never applies it (see `applyUpdate`). -/
structure IUpdateBlogDto where
  title : Option String := none
  slug : Option String := none
  content : Option String := none
  excerpt : Option String := none
  category : Option String := none
  tags : Option (List String) := none
  featuredImage : Option (Option IFeaturedImage) := none
  status : Option IBlogPostStatus := none
  visibility : Option IBlogPostVisibility := none
  seo : Option (Option IBlogSEO) := none
  publishedAt : Option (Option Nat) := none
  scheduledFor : Option (Option Nat) := none
deriving DecidableEq, Repr

/-- Creation payload (interface ICreateBlogDto). -/
structure ICreateBlogDto where
  title : String
  slug : Option String := none
  content : String
  excerpt : Option String := none
  author : Option String := none
  category : String
  tags : Option (List String) := none
  featuredImage : Option IFeaturedImage := none
  status : Option IBlogPostStatus := none
  visibility : Option IBlogPostVisibility := none
  seo : Option IBlogSEO := none
  scheduledFor : Option Nat := none
deriving DecidableEq, Repr

/-- Mongo `$set` with one IUpdateBlogDto applied to one document, as
performed by `Blog.findByIdAndUpdate(id, { $set: updates })`: each
present field overwrites the stored one. The schema marks `slug`
immutable, so the ODM strips a `slug` key from the `$set` document and
the stored slug is kept (the DTO carries no `author` or `likes` key at
all). -/
def applyUpdate (b : IBlogPostEntity) (u : IUpdateBlogDto) : IBlogPostEntity :=
  { b with
    title := u.title.getD b.title
    content := u.content.getD b.content
    excerpt := (u.excerpt.map some).getD b.excerpt
    category := u.category.getD b.category
    tags := u.tags.getD b.tags
    featuredImage := u.featuredImage.getD b.featuredImage
    status := u.status.getD b.status
    visibility := u.visibility.getD b.visibility
    seo := u.seo.getD b.seo
    publishedAt := u.publishedAt.getD b.publishedAt
    scheduledFor := u.scheduledFor.getD b.scheduledFor }

/-- Error codes used by the service layer (constants/errorCodes.ts,
restricted to the codes the blog service raises). -/
inductive ErrorCode where
  | BAD_REQUEST
  | UNAUTHORIZED
  | FORBIDDEN
  | NOT_FOUND
  | CONFLICT
  | INTERNAL_SERVER_ERROR
deriving DecidableEq, Repr

/-- ApiError(message, statusCode, errorCode) as thrown by the service. -/
structure ApiError where
  message : String
  statusCode : Nat
  code : ErrorCode
deriving DecidableEq, Repr

deriving instance DecidableEq for Except

/-- Pagination metadata of a findAll result. -/
structure PaginationMeta where
  page : Nat
  limit : Nat
  total : Nat
  totalPages : Nat
deriving DecidableEq, Repr

/-- A page of entities plus pagination metadata (PaginatedData). -/
structure PaginatedData (α : Type) where
  data : List α
  pagination : PaginationMeta
deriving DecidableEq, Repr

/-- Query parameters of list retrieval (IQueryParams); every field is
optional and defaulted inside findAll. -/
structure IQueryParams where
  page : Option Nat := none
  limit : Option Nat := none
  search : Option String := none
  sortBy : Option String := none
  sortOrder : Option String := none
deriving DecidableEq, Repr

/-- Numeric sort key of a post for a given `sortBy` field name,
covering the date/number fields of the schema; Mongo sorting on a
string-typed field is outside the modelled key space and is mapped to
the constant key 0 (the claims under verification do not depend on the
relative order produced by the sort, only on it being a permutation). -/
def sortFieldVal (sortBy : String) (p : IBlogPostEntity) : Nat :=
  if sortBy = "createdAt" then p.createdAt
  else if sortBy = "viewCount" then p.viewCount
  else if sortBy = "readTime" then p.readTime
  else if sortBy = "publishedAt" then p.publishedAt.getD 0
  else if sortBy = "scheduledFor" then p.scheduledFor.getD 0
  else 0

/-- Mongo sort comparator for `{ [sortBy]: sortOrder === "asc" ? 1 : -1 }`. -/
def blogLe (sortBy sortOrder : String) (a b : IBlogPostEntity) : Bool :=
  if sortOrder = "asc" then decide (sortFieldVal sortBy a ≤ sortFieldVal sortBy b)
  else decide (sortFieldVal sortBy b ≤ sortFieldVal sortBy a)

/-- Insert an element into a list sorted by `le` (helper of the sort by
which the store answers `Blog.find(filter).sort(sort)`). -/
def insertSorted {α : Type} (le : α → α → Bool) (a : α) : List α → List α
  | [] => [a]
  | b :: bs => if le a b then a :: b :: bs else b :: insertSorted le a bs

/-- Insertion sort by the comparator `le`: the order in which the store
returns the filtered documents. -/
def insertionSortBy {α : Type} (le : α → α → Bool) : List α → List α
  | [] => []
  | a :: as => insertSorted le a (insertionSortBy le as)

/-- JS String.prototype.trim: strip leading and trailing whitespace
(written over the character list so that it evaluates by reduction). -/
def strTrim (s : String) : String :=
  String.mk
    (((s.data.dropWhile Char.isWhitespace).reverse.dropWhile
        Char.isWhitespace).reverse)

/-- The filter step of findAll: an empty (or all-blank) search term
disables the text predicate entirely, a non-blank one restricts the
collection to the documents matched by the text index, whose predicate
`textMatch` is a capability of the external document store. -/
def findAllFilter (textMatch : String → IBlogPostEntity → Bool)
    (db : Store) (search : String) : Store :=
  if strTrim search ≠ "" then db.filter (textMatch search) else db

namespace BlogRepository

/-- Blog.findById(id).lean(): point lookup; a malformed id or a store
error yields null exactly like absence, so the model is a total lookup. -/
def findById (db : Store) (id : String) : Option IBlogPostEntity :=
  db.find? (fun p => p.id = id)

/-- Blog.findOne({ slug }).lean(): lookup by unique slug. -/
def findBySlug (db : Store) (slug : String) : Option IBlogPostEntity :=
  db.find? (fun p => p.slug = slug)

/-- BlogRepository.updateById: `findByIdAndUpdate(id, { $set: updates },
{ new: true })`; absence and a store error (the catch branch,
`storeFail = true`) both yield none, a hit applies the `$set` document
to the stored post and returns the updated entity. -/
def updateById (db : Store) (storeFail : Bool) (id : String)
    (updates : IUpdateBlogDto) : Store × Option IBlogPostEntity :=
  if storeFail then (db, none)
  else
    match db.find? (fun p => p.id = id) with
    | none => (db, none)
    | some b =>
        (db.map (fun p => if p.id = id then applyUpdate p updates else p),
         some (applyUpdate b updates))

/-- BlogRepository.deleteById: `findByIdAndDelete(id)`; true exactly
when a document was deleted, false on absence or store error. -/
def deleteById (db : Store) (storeFail : Bool) (id : String) :
    Store × Bool :=
  if storeFail then (db, false)
  else
    match db.find? (fun p => p.id = id) with
    | none => (db, false)
    | some _ => (db.filter (fun p => p.id ≠ id), true)

/-- BlogRepository.incrementViewCount: atomic `$inc` of viewCount;
the `boolean | null` result is `some true` on success, `none` when the
post is absent and `some false` on a store error (the catch branch). -/
def incrementViewCount (db : Store) (storeFail : Bool) (id : String) :
    Store × Option Bool :=
  if storeFail then (db, some false)
  else
    match db.find? (fun p => p.id = id) with
    | none => (db, none)
    | some _ =>
        (db.map (fun p =>
            if p.id = id then { p with viewCount := p.viewCount + 1 } else p),
         some true)

/-- The guard of the atomic like insertion: the document matches the
update filter `{ _id: postId, likes: { $not: { $elemMatch: { user:
userId } } } }` exactly when it has the requested id and no like entry
by that user. -/
def addLikeGuard (postId userId : String) (p : IBlogPostEntity) : Bool :=
  p.id = postId && p.likes.all (fun l => l.user ≠ userId)

/-- BlogRepository.addLike: one guarded atomic `updateOne` that pushes
`{ user, likedAt: now }` only where `addLikeGuard` matches; the
`boolean | null` result is `some true` on success, `none` when
`matchedCount` or `modifiedCount` is 0 (post absent or already liked)
and `some false` on a store error (the catch branch). -/
def addLike (db : Store) (storeFail : Bool) (now : Nat)
    (postId userId : String) : Store × Option Bool :=
  if storeFail then (db, some false)
  else
    match db.find? (addLikeGuard postId userId) with
    | none => (db, none)
    | some _ =>
        (db.map (fun p =>
            if addLikeGuard postId userId p then
              { p with likes := p.likes ++ [⟨userId, now⟩] }
            else p),
         some true)

/-- The guard of the atomic like removal: the document matches the
update filter `{ _id: postId, "likes.user": userId }` exactly when it
has the requested id and some like entry by that user. -/
def removeLikeGuard (postId userId : String) (p : IBlogPostEntity) : Bool :=
  p.id = postId && p.likes.any (fun l => l.user = userId)

/-- BlogRepository.removeLike: one guarded atomic `updateOne` that
`$pull`s every like entry of the user where `removeLikeGuard` matches;
result conventions as in `addLike` (`none` covers post absent or like
not present). -/
def removeLike (db : Store) (storeFail : Bool)
    (postId userId : String) : Store × Option Bool :=
  if storeFail then (db, some false)
  else
    match db.find? (removeLikeGuard postId userId) with
    | none => (db, none)
    | some _ =>
        (db.map (fun p =>
            if removeLikeGuard postId userId p then
              { p with likes := p.likes.filter (fun l => l.user ≠ userId) }
            else p),
         some true)

/-- BlogRepository.schedule: delegates to updateById with
`{ scheduledFor: publishDate, status: SCHEDULED }`. -/
def schedule (db : Store) (storeFail : Bool) (postId : String)
    (publishDate : Nat) : Store × Option IBlogPostEntity :=
  updateById db storeFail postId
    { scheduledFor := some (some publishDate)
      status := some IBlogPostStatus.scheduled }

/-- BlogRepository.publish: delegates to updateById with
`{ status: PUBLISHED, publishedAt: new Date(), scheduledFor: new
Date() }` — note the source also overwrites scheduledFor with the
publication instant. -/
def publish (db : Store) (storeFail : Bool) (now : Nat)
    (postId : String) : Store × Option IBlogPostEntity :=
  updateById db storeFail postId
    { status := some IBlogPostStatus.published
      publishedAt := some (some now)
      scheduledFor := some (some now) }

/-- BlogRepository.archive: delegates to updateById with
`{ status: ARCHIVED }`. -/
def archive (db : Store) (storeFail : Bool) (postId : String) :
    Store × Option IBlogPostEntity :=
  updateById db storeFail postId
    { status := some IBlogPostStatus.archived }

/-- BlogRepository.findAll: filter (text predicate only for a non-blank
search term), sort, then paginate by `(page-1)*limit` offset and
`limit` size; `countDocuments` of the same filter gives `total` and
`totalPages = Math.ceil(total / limit)` is `(total + limit - 1) / limit`
on naturals. The catch branch (`storeFail = true`) never throws: it logs
and returns an empty page with the default metadata. -/
def findAll (textMatch : String → IBlogPostEntity → Bool)
    (db : Store) (storeFail : Bool) (params : IQueryParams) :
    PaginatedData IBlogPostEntity :=
  if storeFail then ⟨[], ⟨1, 10, 0, 0⟩⟩
  else
    let page := params.page.getD 1
    let limit := params.limit.getD 10
    let search := params.search.getD ""
    let sortBy := params.sortBy.getD "createdAt"
    let sortOrder := params.sortOrder.getD "desc"
    let skip := (page - 1) * limit
    let filtered := findAllFilter textMatch db search
    let blogs := ((insertionSortBy (blogLe sortBy sortOrder) filtered).drop skip).take limit
    let total := filtered.length
    ⟨blogs, ⟨page, limit, total, (total + limit - 1) / limit⟩⟩

/-- BlogRepository.create: `Blog.create(data)` inserts one document,
the schema supplying the defaults (status draft, visibility public,
viewCount 0, likes [], readTime 0, null publishedAt) for absent fields;
the unique index on slug rejects a duplicate slug, which the catch
branch turns into null, as it does a store error. The store assigns the
fresh id `newId` and the `createdAt` timestamp `now`. -/
def create (db : Store) (storeFail : Bool) (newId : String) (now : Nat)
    (data : ICreateBlogDto) : Store × Option IBlogPostEntity :=
  if storeFail ∨ db.any (fun p => p.slug = data.slug.getD "") then (db, none)
  else
    let b : IBlogPostEntity :=
      { id := newId
        title := data.title
        slug := data.slug.getD ""
        content := data.content
        excerpt := data.excerpt
        author := data.author.getD ""
        category := data.category
        tags := data.tags.getD []
        featuredImage := data.featuredImage
        status := data.status.getD IBlogPostStatus.draft
        visibility := data.visibility.getD IBlogPostVisibility.public
        viewCount := 0
        likes := []
        readTime := 0
        seo := data.seo
        publishedAt := none
        scheduledFor := data.scheduledFor
        createdAt := now }
    (db ++ [b], some b)

end BlogRepository

/-- Split a character list at the characters satisfying the separator
predicate (the character-list counterpart of String.split, written so
that it evaluates by reduction). -/
def splitRuns (sep : Char → Bool) : List Char → List (List Char)
  | [] => [[]]
  | c :: cs =>
      match splitRuns sep cs with
      | [] => [[c]]
      | r :: rs => if sep c then [] :: r :: rs else (c :: r) :: rs

/-- Slug derivation (the slugify library with `{ lower: true, strict:
true }`): lowercase, keep only alphanumeric runs, join them with
hyphens. -/
def slugify (s : String) : String :=
  String.intercalate "-"
    (((splitRuns (fun c => !c.isAlphanum)
        (s.data.map Char.toLower)).filter (fun w => w ≠ [])).map String.mk)

/-- Number of keys present on an update payload
(`Object.keys(updateData).length` of the DTO). -/
def IUpdateBlogDto.keysCount (u : IUpdateBlogDto) : Nat :=
  [u.title.isSome, u.slug.isSome, u.content.isSome, u.excerpt.isSome,
   u.category.isSome, u.tags.isSome, u.featuredImage.isSome,
   u.status.isSome, u.visibility.isSome, u.seo.isSome,
   u.publishedAt.isSome, u.scheduledFor.isSome].count true

/-- The data field of a findAll result, viewed as the possibly-missing
value the optional chain `result?.data` reads; the result type of
findAll always populates it. -/
def dataField {α : Type} (r : PaginatedData α) : Option (List α) :=
  some r.data

namespace BlogService

/-- BlogService.create: requires title and content (a JS falsy check,
true on the empty string), derives the slug from the title when none is
supplied, defaults status and visibility, then delegates to the
repository; a null repository result becomes InternalError. -/
def create (db : Store) (storeFail : Bool) (newId : String) (now : Nat)
    (post : ICreateBlogDto) : Store × Except ApiError IBlogPostEntity :=
  if post.title = "" ∨ post.content = "" then
    (db, .error ⟨"Title and content are required", 400, ErrorCode.BAD_REQUEST⟩)
  else
    let slug := post.slug.getD (slugify post.title)
    let payload : ICreateBlogDto :=
      { post with
        slug := some slug
        status := some (post.status.getD IBlogPostStatus.draft)
        visibility := some (post.visibility.getD IBlogPostVisibility.public) }
    match BlogRepository.create db storeFail newId now payload with
    | (db2, some created) => (db2, .ok created)
    | (db2, none) =>
        (db2, .error ⟨"Failed to create blog post", 500,
                      ErrorCode.INTERNAL_SERVER_ERROR⟩)

/-- BlogService.getById: NotFound on absence, Forbidden on a draft
post unless includeDrafts is set, the entity otherwise. -/
def getById (db : Store) (id : String) (includeDrafts : Bool) :
    Except ApiError IBlogPostEntity :=
  match BlogRepository.findById db id with
  | none => .error ⟨"Blog post not found", 404, ErrorCode.NOT_FOUND⟩
  | some blog =>
      if !includeDrafts && blog.status = IBlogPostStatus.draft then
        .error ⟨"Blog post is not published", 403, ErrorCode.FORBIDDEN⟩
      else .ok blog

/-- BlogService.getBySlug: same gate as getById, keyed by slug. -/
def getBySlug (db : Store) (slug : String) (includeDrafts : Bool) :
    Except ApiError IBlogPostEntity :=
  match BlogRepository.findBySlug db slug with
  | none => .error ⟨"Blog post not found", 404, ErrorCode.NOT_FOUND⟩
  | some blog =>
      if !includeDrafts && blog.status = IBlogPostStatus.draft then
        .error ⟨"Blog post is not published", 403, ErrorCode.FORBIDDEN⟩
      else .ok blog

/-- BlogService.getAll: fetches a page from the repository; the guard
is the JS test `!result?.data` — findAll always returns an object whose
data field is an array, and an array value is truthy even when empty,
so the NotFound branch fires only if the data field were a missing
value. -/
def getAll (textMatch : String → IBlogPostEntity → Bool) (db : Store)
    (storeFail : Bool) (query : IQueryParams) :
    Except ApiError (PaginatedData IBlogPostEntity) :=
  let result := BlogRepository.findAll textMatch db storeFail query
  if (dataField result).isNone then
    .error ⟨"No blog posts found", 404, ErrorCode.NOT_FOUND⟩
  else .ok result

/-- BlogService.update: BadRequest on a falsy id or an empty update
payload, NotFound when the post is absent, InternalError when the
repository update returns null, the updated entity otherwise. -/
def update (db : Store) (storeFail : Bool) (id : String)
    (updateData : IUpdateBlogDto) : Store × Except ApiError IBlogPostEntity :=
  if id = "" then
    (db, .error ⟨"Blog ID is required", 400, ErrorCode.BAD_REQUEST⟩)
  else if updateData.keysCount = 0 then
    (db, .error ⟨"No update data provided", 400, ErrorCode.BAD_REQUEST⟩)
  else
    match BlogRepository.findById db id with
    | none => (db, .error ⟨"Blog post not found", 404, ErrorCode.NOT_FOUND⟩)
    | some _ =>
        match BlogRepository.updateById db storeFail id updateData with
        | (db2, some updated) => (db2, .ok updated)
        | (db2, none) =>
            (db2, .error ⟨"Failed to update blog post", 500,
                          ErrorCode.INTERNAL_SERVER_ERROR⟩)

/-- BlogService.delete: NotFound whenever the repository reports that
no deletion occurred. -/
def delete (db : Store) (storeFail : Bool) (id : String) :
    Store × Except ApiError Bool :=
  let r := BlogRepository.deleteById db storeFail id
  if !r.2 then
    (r.1, .error ⟨"Blog post not found", 404, ErrorCode.NOT_FOUND⟩)
  else (r.1, .ok true)

/-- BlogService.incrementViewCount: null maps to NotFound, false to
InternalError, true to success. -/
def incrementViewCount (db : Store) (storeFail : Bool) (id : String) :
    Store × Except ApiError Bool :=
  let r := BlogRepository.incrementViewCount db storeFail id
  match r.2 with
  | none => (r.1, .error ⟨"Blog post not found", 404, ErrorCode.NOT_FOUND⟩)
  | some false =>
      (r.1, .error ⟨"Failed to increment view count", 500,
                    ErrorCode.INTERNAL_SERVER_ERROR⟩)
  | some true => (r.1, .ok true)

/-- BlogService.addLike: existence check first (NotFound), then the
guarded repository mutation; the JS test `!success` is true for both
the null (not applicable) and the false (store error) outcome, so both
reach the Conflict branch. -/
def addLike (db : Store) (storeFail : Bool) (now : Nat)
    (postId userId : String) : Store × Except ApiError Bool :=
  match BlogRepository.findById db postId with
  | none => (db, .error ⟨"Blog post not found", 404, ErrorCode.NOT_FOUND⟩)
  | some _ =>
      let r := BlogRepository.addLike db storeFail now postId userId
      if r.2 ≠ some true then
        (r.1, .error ⟨"Blog already liked", 409, ErrorCode.CONFLICT⟩)
      else (r.1, .ok true)

/-- BlogService.removeLike: existence check first (NotFound), then the
guarded repository mutation; as in addLike, the JS test `!success`
sends both the null and the false outcome to the Conflict branch. -/
def removeLike (db : Store) (storeFail : Bool)
    (postId userId : String) : Store × Except ApiError Bool :=
  match BlogRepository.findById db postId with
  | none => (db, .error ⟨"Blog post not found", 404, ErrorCode.NOT_FOUND⟩)
  | some _ =>
      let r := BlogRepository.removeLike db storeFail postId userId
      if r.2 ≠ some true then
        (r.1, .error ⟨"Like not found", 409, ErrorCode.CONFLICT⟩)
      else (r.1, .ok true)

/-- BlogService.schedule: rejects a publish date not strictly in the
future before any store access, then NotFound on absence, then the
repository schedule update; a null update result becomes InternalError. -/
def schedule (db : Store) (storeFail : Bool) (now : Nat)
    (postId : String) (publishDate : Nat) :
    Store × Except ApiError IBlogPostEntity :=
  if publishDate ≤ now then
    (db, .error ⟨"Publish date must be in the future", 400,
                 ErrorCode.BAD_REQUEST⟩)
  else
    match BlogRepository.findById db postId with
    | none => (db, .error ⟨"Blog post not found", 404, ErrorCode.NOT_FOUND⟩)
    | some _ =>
        match BlogRepository.schedule db storeFail postId publishDate with
        | (db2, some scheduled) => (db2, .ok scheduled)
        | (db2, none) =>
            (db2, .error ⟨"Failed to schedule blog post", 500,
                          ErrorCode.INTERNAL_SERVER_ERROR⟩)

/-- BlogService.publish: NotFound on absence, Conflict on an already
published post (checked before the mutating store call), then the
repository publish update; a null update result becomes InternalError. -/
def publish (db : Store) (storeFail : Bool) (now : Nat)
    (postId : String) : Store × Except ApiError IBlogPostEntity :=
  match BlogRepository.findById db postId with
  | none => (db, .error ⟨"Blog post not found", 404, ErrorCode.NOT_FOUND⟩)
  | some post =>
      if post.status = IBlogPostStatus.published then
        (db, .error ⟨"Blog post already published", 409, ErrorCode.CONFLICT⟩)
      else
        match BlogRepository.publish db storeFail now postId with
        | (db2, some published) => (db2, .ok published)
        | (db2, none) =>
            (db2, .error ⟨"Failed to publish blog post", 500,
                          ErrorCode.INTERNAL_SERVER_ERROR⟩)

/-- BlogService.archive: NotFound on absence (no conflict check —
archiving an archived post is accepted), then the repository archive
update; a null update result becomes InternalError. -/
def archive (db : Store) (storeFail : Bool) (postId : String) :
    Store × Except ApiError IBlogPostEntity :=
  match BlogRepository.findById db postId with
  | none => (db, .error ⟨"Blog post not found", 404, ErrorCode.NOT_FOUND⟩)
  | some _ =>
      match BlogRepository.archive db storeFail postId with
      | (db2, some archived) => (db2, .ok archived)
      | (db2, none) =>
          (db2, .error ⟨"Failed to archive blog post", 500,
                        ErrorCode.INTERNAL_SERVER_ERROR⟩)

end BlogService

/-- The mutating service operations exposed after the creation of a
post (the controller surface of §4.2 minus create and the read-only
operations). -/
inductive BlogOp where
  | update (id : String) (dto : IUpdateBlogDto)
  | delete (id : String)
  | incrementViewCount (id : String)
  | addLike (postId userId : String)
  | removeLike (postId userId : String)
  | schedule (postId : String) (publishDate : Nat)
  | publish (postId : String)
  | archive (postId : String)
deriving DecidableEq, Repr

/-- Store state after one exposed mutating service operation. -/
def applyOp (db : Store) (storeFail : Bool) (now : Nat) (op : BlogOp) :
    Store :=
  match op with
  | .update id dto => (BlogService.update db storeFail id dto).1
  | .delete id => (BlogService.delete db storeFail id).1
  | .incrementViewCount id => (BlogService.incrementViewCount db storeFail id).1
  | .addLike postId userId => (BlogService.addLike db storeFail now postId userId).1
  | .removeLike postId userId => (BlogService.removeLike db storeFail postId userId).1
  | .schedule postId d => (BlogService.schedule db storeFail now postId d).1
  | .publish postId => (BlogService.publish db storeFail now postId).1
  | .archive postId => (BlogService.archive db storeFail postId).1

/-- A minimal concrete post used as test data in witnesses. -/
def samplePost (id slug : String) (st : IBlogPostStatus) : IBlogPostEntity :=
  { id := id
    title := "Sample title"
    slug := slug
    content := "Sample content"
    excerpt := none
    author := "author1"
    category := "cat1"
    tags := []
    featuredImage := none
    status := st
    visibility := IBlogPostVisibility.public
    viewCount := 0
    likes := []
    readTime := 0
    seo := none
    publishedAt := none
    scheduledFor := none
    createdAt := 0 }

/-- C7: for an existing post, getById and getBySlug with
includeDrafts=false on a draft post always fail Forbidden; with
includeDrafts=true they return the post; for every non-draft status the
post is returned regardless of the flag; for an absent post both fail
NotFound. -/
theorem getById_getBySlug_draftVisibilityGate (db : Store)
    (id slug : String) (includeDrafts : Bool) :
    (BlogRepository.findById db id = none →
      BlogService.getById db id includeDrafts =
        .error ⟨"Blog post not found", 404, ErrorCode.NOT_FOUND⟩) ∧
    (∀ p, BlogRepository.findById db id = some p →
      (p.status = IBlogPostStatus.draft →
        BlogService.getById db id false =
          .error ⟨"Blog post is not published", 403, ErrorCode.FORBIDDEN⟩ ∧
        BlogService.getById db id true = .ok p) ∧
      (p.status ≠ IBlogPostStatus.draft →
        BlogService.getById db id includeDrafts = .ok p)) ∧
    (BlogRepository.findBySlug db slug = none →
      BlogService.getBySlug db slug includeDrafts =
        .error ⟨"Blog post not found", 404, ErrorCode.NOT_FOUND⟩) ∧
    (∀ p, BlogRepository.findBySlug db slug = some p →
      (p.status = IBlogPostStatus.draft →
        BlogService.getBySlug db slug false =
          .error ⟨"Blog post is not published", 403, ErrorCode.FORBIDDEN⟩ ∧
        BlogService.getBySlug db slug true = .ok p) ∧
      (p.status ≠ IBlogPostStatus.draft →
        BlogService.getBySlug db slug includeDrafts = .ok p)) := by
  refine ⟨fun h => ?_, fun p h => ⟨fun hst => ⟨?_, ?_⟩, fun hst => ?_⟩,
          fun h => ?_, fun p h => ⟨fun hst => ⟨?_, ?_⟩, fun hst => ?_⟩⟩ <;>
    simp_all [BlogService.getById, BlogService.getBySlug]

/-- Witness for C7 on a two-post store holding one draft and one
published post. -/
theorem getById_getBySlug_draftVisibilityGate_witness :
    BlogService.getById [samplePost "p1" "s1" IBlogPostStatus.draft,
        samplePost "p2" "s2" IBlogPostStatus.published] "p1" false =
      .error ⟨"Blog post is not published", 403, ErrorCode.FORBIDDEN⟩ ∧
    BlogService.getById [samplePost "p1" "s1" IBlogPostStatus.draft,
        samplePost "p2" "s2" IBlogPostStatus.published] "p1" true =
      .ok (samplePost "p1" "s1" IBlogPostStatus.draft) ∧
    BlogService.getById [samplePost "p1" "s1" IBlogPostStatus.draft,
        samplePost "p2" "s2" IBlogPostStatus.published] "p2" false =
      .ok (samplePost "p2" "s2" IBlogPostStatus.published) ∧
    BlogService.getBySlug [samplePost "p1" "s1" IBlogPostStatus.draft,
        samplePost "p2" "s2" IBlogPostStatus.published] "s3" false =
      .error ⟨"Blog post not found", 404, ErrorCode.NOT_FOUND⟩ := by
  refine ⟨((getById_getBySlug_draftVisibilityGate _ "p1" "s1" false).2.1
            (samplePost "p1" "s1" IBlogPostStatus.draft) (by decide)).1
            (by decide) |>.1,
          ((getById_getBySlug_draftVisibilityGate _ "p1" "s1" true).2.1
            (samplePost "p1" "s1" IBlogPostStatus.draft) (by decide)).1
            (by decide) |>.2,
          ((getById_getBySlug_draftVisibilityGate _ "p2" "s2" false).2.1
            (samplePost "p2" "s2" IBlogPostStatus.published) (by decide)).2
            (by decide),
          (getById_getBySlug_draftVisibilityGate _ "p1" "s3" false).2.2.1
            (by decide)⟩

/-- C5: publish on a post whose status is already published fails
Conflict and returns the store unchanged (the conflict check happens
before the mutating store call). -/
theorem publish_conflict_onPublished (db : Store) (storeFail : Bool)
    (now : Nat) (postId : String) (p : IBlogPostEntity)
    (hfind : BlogRepository.findById db postId = some p)
    (hst : p.status = IBlogPostStatus.published) :
    BlogService.publish db storeFail now postId =
      (db, .error ⟨"Blog post already published", 409, ErrorCode.CONFLICT⟩) := by
  simp [BlogService.publish, hfind, hst]

/-- Witness for C5 on a store holding one published post. -/
theorem publish_conflict_onPublished_witness :
    BlogService.publish [samplePost "p1" "s1" IBlogPostStatus.published]
        false 5 "p1" =
      ([samplePost "p1" "s1" IBlogPostStatus.published],
       .error ⟨"Blog post already published", 409, ErrorCode.CONFLICT⟩) :=
  publish_conflict_onPublished _ false 5 "p1"
    (samplePost "p1" "s1" IBlogPostStatus.published) (by decide) (by decide)

/-- C6: schedule rejects a publish date not strictly in the future with
BadRequest before touching the store (the store comes back unchanged for
every storeFail mode), and on an existing post with a future date it
sets status to scheduled and scheduledFor to the given date, leaving the
other fields of the post unchanged. -/
theorem schedule_validation (db : Store) (now : Nat) (postId : String)
    (publishDate : Nat) :
    (∀ storeFail, publishDate ≤ now →
      BlogService.schedule db storeFail now postId publishDate =
        (db, .error ⟨"Publish date must be in the future", 400,
                     ErrorCode.BAD_REQUEST⟩)) ∧
    (∀ p, BlogRepository.findById db postId = some p → now < publishDate →
      BlogService.schedule db false now postId publishDate =
        (db.map (fun q => if q.id = postId then
            { q with status := IBlogPostStatus.scheduled,
                     scheduledFor := some publishDate } else q),
         .ok { p with status := IBlogPostStatus.scheduled,
                       scheduledFor := some publishDate })) := by
  constructor
  · intro storeFail hle
    simp [BlogService.schedule, hle]
  · intro p hfind hlt
    have hnle : ¬ publishDate ≤ now := Nat.not_le.mpr hlt
    have hfind2 : List.find? (fun q => decide (q.id = postId)) db = some p := hfind
    simp [BlogService.schedule, BlogRepository.schedule,
          BlogRepository.updateById, applyUpdate, hfind, hfind2, hnle]

/-- Witness for C6: a past date is rejected with the store unchanged,
and a future date schedules the existing post. -/
theorem schedule_validation_witness :
    BlogService.schedule [samplePost "p1" "s1" IBlogPostStatus.draft]
        false 10 "p1" 5 =
      ([samplePost "p1" "s1" IBlogPostStatus.draft],
       .error ⟨"Publish date must be in the future", 400,
               ErrorCode.BAD_REQUEST⟩) ∧
    BlogService.schedule [samplePost "p1" "s1" IBlogPostStatus.draft]
        false 10 "p1" 20 =
      ([{ samplePost "p1" "s1" IBlogPostStatus.draft with
            status := IBlogPostStatus.scheduled, scheduledFor := some 20 }],
       .ok { samplePost "p1" "s1" IBlogPostStatus.draft with
               status := IBlogPostStatus.scheduled,
               scheduledFor := some 20 }) := by
  constructor
  · exact (schedule_validation _ 10 "p1" 5).1 false (by decide)
  · have h := (schedule_validation
      [samplePost "p1" "s1" IBlogPostStatus.draft] 10 "p1" 20).2
      (samplePost "p1" "s1" IBlogPostStatus.draft) (by decide) (by decide)
    simpa [samplePost] using h

/-- C2 (amended): for every existing post, the repository publish sets
status to published and publishedAt to the current time, but it also
overwrites scheduledFor with the current time; every remaining field of
the post is unchanged. -/
theorem publish_repo_effect (db : Store) (now : Nat) (postId : String)
    (p : IBlogPostEntity)
    (hfind : BlogRepository.findById db postId = some p) :
    BlogRepository.publish db false now postId =
      (db.map (fun q => if q.id = postId then
          { q with status := IBlogPostStatus.published,
                   publishedAt := some now, scheduledFor := some now }
          else q),
       some { p with status := IBlogPostStatus.published,
                     publishedAt := some now, scheduledFor := some now }) ∧
    (∀ e, (BlogRepository.publish db false now postId).2 = some e →
      e.status = IBlogPostStatus.published ∧ e.publishedAt = some now ∧
      e.scheduledFor = some now ∧ e.id = p.id ∧ e.title = p.title ∧
      e.slug = p.slug ∧ e.content = p.content ∧ e.excerpt = p.excerpt ∧
      e.author = p.author ∧ e.category = p.category ∧ e.tags = p.tags ∧
      e.featuredImage = p.featuredImage ∧ e.visibility = p.visibility ∧
      e.viewCount = p.viewCount ∧ e.likes = p.likes ∧
      e.readTime = p.readTime ∧ e.seo = p.seo ∧
      e.createdAt = p.createdAt) := by
  have hfind2 : List.find? (fun q => decide (q.id = postId)) db = some p :=
    hfind
  have hmain : BlogRepository.publish db false now postId =
      (db.map (fun q => if q.id = postId then
          { q with status := IBlogPostStatus.published,
                   publishedAt := some now, scheduledFor := some now }
          else q),
       some { p with status := IBlogPostStatus.published,
                     publishedAt := some now, scheduledFor := some now }) := by
    simp [BlogRepository.publish, BlogRepository.updateById, applyUpdate,
          hfind2]
  refine ⟨hmain, fun e he => ?_⟩
  rw [hmain] at he
  simp only [Option.some.injEq] at he
  subst he
  simp

/-- Counterexample to C2 as stated: publishing a post whose
scheduledFor is 100 at time 200 changes scheduledFor to 200, so
scheduledFor is not left unchanged. -/
theorem publish_overwrites_scheduledFor :
    ({ samplePost "p1" "s1" IBlogPostStatus.scheduled with
        scheduledFor := some 100 } : IBlogPostEntity).scheduledFor
      = some 100 ∧
    (BlogRepository.publish
        [{ samplePost "p1" "s1" IBlogPostStatus.scheduled with
            scheduledFor := some 100 }] false 200 "p1").2.map
      (fun e => e.scheduledFor) = some (some 200) ∧
    some (some 200) ≠ some (some (100 : Nat)) := by decide

/-- Witness for C2 (amended) on a one-post store. -/
theorem publish_repo_effect_witness :
    (BlogRepository.publish [samplePost "p1" "s1" IBlogPostStatus.draft]
        false 42 "p1").2 =
      some { samplePost "p1" "s1" IBlogPostStatus.draft with
               status := IBlogPostStatus.published,
               publishedAt := some 42, scheduledFor := some 42 } := by
  have h := (publish_repo_effect [samplePost "p1" "s1" IBlogPostStatus.draft]
    42 "p1" (samplePost "p1" "s1" IBlogPostStatus.draft) (by decide)).1
  simpa [samplePost] using congrArg Prod.snd h

/-- A published post already liked by user u1, used as test data. -/
def likedPost : IBlogPostEntity :=
  { samplePost "p1" "s1" IBlogPostStatus.published with
      likes := [⟨"u1", 3⟩] }

/-- C1 (amended): at the service level, an absent post makes addLike
and removeLike fail NotFound; after a successful existence check, every
non-success repository outcome — the not-applicable outcome (already
liked / not liked) and equally a store-level failure — is surfaced as
Conflict: the falsy test on the tri-state result does not separate the
store-failure value from the not-applicable value, so no InternalError
is ever produced. -/
theorem likes_errorMapping (db : Store) (now : Nat)
    (postId userId : String) :
    (BlogRepository.findById db postId = none →
      ∀ storeFail,
        BlogService.addLike db storeFail now postId userId =
          (db, .error ⟨"Blog post not found", 404, ErrorCode.NOT_FOUND⟩) ∧
        BlogService.removeLike db storeFail postId userId =
          (db, .error ⟨"Blog post not found", 404, ErrorCode.NOT_FOUND⟩)) ∧
    ((∃ p, BlogRepository.findById db postId = some p) →
        BlogService.addLike db true now postId userId =
          (db, .error ⟨"Blog already liked", 409, ErrorCode.CONFLICT⟩) ∧
        BlogService.removeLike db true postId userId =
          (db, .error ⟨"Like not found", 409, ErrorCode.CONFLICT⟩)) ∧
    ((∃ p, BlogRepository.findById db postId = some p) →
      (BlogRepository.addLike db false now postId userId).2 = none →
        BlogService.addLike db false now postId userId =
          (db, .error ⟨"Blog already liked", 409, ErrorCode.CONFLICT⟩)) ∧
    ((∃ p, BlogRepository.findById db postId = some p) →
      (BlogRepository.removeLike db false postId userId).2 = none →
        BlogService.removeLike db false postId userId =
          (db, .error ⟨"Like not found", 409, ErrorCode.CONFLICT⟩)) := by
  refine ⟨fun hnone storeFail => ?_, fun ⟨p, hp⟩ => ?_,
          fun ⟨p, hp⟩ hnull => ?_, fun ⟨p, hp⟩ hnull => ?_⟩
  · simp [BlogService.addLike, BlogService.removeLike, hnone]
  · simp [BlogService.addLike, BlogService.removeLike, hp,
          BlogRepository.addLike, BlogRepository.removeLike]
  · cases hg : List.find? (BlogRepository.addLikeGuard postId userId) db with
    | none => simp [BlogService.addLike, hp, BlogRepository.addLike, hg]
    | some q =>
        exfalso
        simp [BlogRepository.addLike, hg] at hnull
  · cases hg : List.find? (BlogRepository.removeLikeGuard postId userId) db with
    | none => simp [BlogService.removeLike, hp, BlogRepository.removeLike, hg]
    | some q =>
        exfalso
        simp [BlogRepository.removeLike, hg] at hnull

/-- Counterexample to C1 as stated: a store-level failure of the like
mutation on an existing post surfaces as Conflict ("Blog already
liked"), not as InternalError. -/
theorem addLike_storeFailure_isConflict :
    BlogService.addLike [samplePost "p1" "s1" IBlogPostStatus.published]
        true 7 "p1" "u1" =
      ([samplePost "p1" "s1" IBlogPostStatus.published],
       .error ⟨"Blog already liked", 409, ErrorCode.CONFLICT⟩) ∧
    ErrorCode.CONFLICT ≠ ErrorCode.INTERNAL_SERVER_ERROR := by decide

/-- Witness for C1 (amended): the NotFound, store-failure and
not-applicable branches at concrete inputs. -/
theorem likes_errorMapping_witness :
    BlogService.addLike [] false 7 "p1" "u1" =
      ([], .error ⟨"Blog post not found", 404, ErrorCode.NOT_FOUND⟩) ∧
    BlogService.addLike [likedPost] true 7 "p1" "u1" =
      ([likedPost], .error ⟨"Blog already liked", 409, ErrorCode.CONFLICT⟩) ∧
    BlogService.addLike [likedPost] false 7 "p1" "u1" =
      ([likedPost], .error ⟨"Blog already liked", 409, ErrorCode.CONFLICT⟩) ∧
    BlogService.removeLike [likedPost] false "p1" "u2" =
      ([likedPost], .error ⟨"Like not found", 409, ErrorCode.CONFLICT⟩) :=
  ⟨((likes_errorMapping [] 7 "p1" "u1").1 (by decide) false).1,
   ((likes_errorMapping [likedPost] 7 "p1" "u1").2.1 ⟨likedPost, by decide⟩).1,
   (likes_errorMapping [likedPost] 7 "p1" "u1").2.2.1
     ⟨likedPost, by decide⟩ (by decide),
   (likes_errorMapping [likedPost] 7 "p1" "u2").2.2.2
     ⟨likedPost, by decide⟩ (by decide)⟩

/-- C8: findAll never raises — on a store-level failure it returns the
empty page with total 0 and totalPages 0 (and the default page 1 /
limit 10 metadata), for every query. -/
theorem findAll_storeError_emptyPage
    (textMatch : String → IBlogPostEntity → Bool) (db : Store)
    (params : IQueryParams) :
    BlogRepository.findAll textMatch db true params = ⟨[], ⟨1, 10, 0, 0⟩⟩ ∧
    (BlogRepository.findAll textMatch db true params).data = [] ∧
    (BlogRepository.findAll textMatch db true params).pagination.total = 0 ∧
    (BlogRepository.findAll textMatch db true params).pagination.totalPages
      = 0 :=
  ⟨rfl, rfl, rfl, rfl⟩

/-- C10: the service getAll never fails NotFound: findAll always
returns a result whose data field is a (possibly empty) list, so the
"No blog posts found" branch is unreachable; getAll succeeds with the
findAll page verbatim, in particular with an empty items list on a
store error and on an empty collection. -/
theorem getAll_neverNotFound
    (textMatch : String → IBlogPostEntity → Bool) (db : Store)
    (storeFail : Bool) (query : IQueryParams) :
    BlogService.getAll textMatch db storeFail query =
      .ok (BlogRepository.findAll textMatch db storeFail query) ∧
    BlogService.getAll textMatch db true query = .ok ⟨[], ⟨1, 10, 0, 0⟩⟩ ∧
    BlogService.getAll textMatch [] false query =
      .ok ⟨[], ⟨query.page.getD 1, query.limit.getD 10, 0, 0⟩⟩ := by
  have hempty : ∀ l : Nat, (l - 1) / l = 0 := by
    intro l
    rcases Nat.eq_zero_or_pos l with h | h
    · simp [h]
    · exact Nat.div_eq_of_lt (by omega)
  refine ⟨?_, ?_, ?_⟩
  · simp [BlogService.getAll, dataField]
  · simp [BlogService.getAll, dataField, BlogRepository.findAll]
  · simp [BlogService.getAll, dataField, BlogRepository.findAll,
          findAllFilter, insertionSortBy, hempty]

/-- Number of matching elements kept by insertSorted. -/
theorem length_insertSorted {α : Type} (le : α → α → Bool) (a : α)
    (l : List α) : (insertSorted le a l).length = l.length + 1 := by
  induction l with
  | nil => rfl
  | cons b bs ih => cases h : le a b <;> simp [insertSorted, h, ih]

/-- The sort step of findAll is a permutation in length: it returns as
many documents as it was given. -/
theorem length_insertionSortBy {α : Type} (le : α → α → Bool)
    (l : List α) : (insertionSortBy le l).length = l.length := by
  induction l with
  | nil => rfl
  | cons a as ih => simp [insertionSortBy, length_insertSorted, ih]

/-- Bounds characterising `(t + l - 1) / l` as the ceiling of t / l. -/
theorem ceil_div_bounds (t l : Nat) (hl : 1 ≤ l) :
    t ≤ ((t + l - 1) / l) * l ∧
    (1 ≤ t → ((t + l - 1) / l - 1) * l < t) := by
  rcases Nat.eq_zero_or_pos t with rfl | ht
  · exact ⟨by simp, by omega⟩
  · have hq : (t + l - 1) / l = (t - 1) / l + 1 := by
      have h1 : t + l - 1 = (t - 1) + l := by omega
      rw [h1, Nat.add_div_right _ hl]
    constructor
    · have hdm := Nat.div_add_mod (t - 1) l
      have hmod : (t - 1) % l < l := Nat.mod_lt _ hl
      rw [hq]
      have hexp : ((t - 1) / l + 1) * l = l * ((t - 1) / l) + l := by ring
      rw [hexp]
      omega
    · intro h1t
      rw [hq]
      simp only [Nat.add_sub_cancel]
      calc ((t - 1) / l) * l ≤ t - 1 := Nat.div_mul_le_self _ _
        _ < t := by omega

/-- A published post with numbered identity and creation time, used to
build a collection of a given size. -/
def mkNumberedPost (n : Nat) : IBlogPostEntity :=
  { samplePost (toString n) (toString n) IBlogPostStatus.published with
      createdAt := n }

/-- A store of 23 posts. -/
def db23 : Store := (List.range 23).map mkNumberedPost

/-- C9: findAll paginates by a `(page-1)*limit` offset and a `limit`
page size over the filtered collection, reports total as the number of
matching documents and totalPages as the ceiling of total / limit; in
particular with 23 documents and limit 10, totalPages is 3, page 3
holds 3 items and page 4 is empty with the same total 23. -/
theorem findAll_paginationArithmetic
    (textMatch : String → IBlogPostEntity → Bool) (db : Store)
    (page limit : Nat) (search sortBy sortOrder : Option String)
    (hp : 1 ≤ page) (hl : 1 ≤ limit) :
    (let r := BlogRepository.findAll textMatch db false
        ⟨some page, some limit, search, sortBy, sortOrder⟩
     let filtered := findAllFilter textMatch db (search.getD "")
     r.data = ((insertionSortBy
         (blogLe (sortBy.getD "createdAt") (sortOrder.getD "desc"))
         filtered).drop ((page - 1) * limit)).take limit ∧
     r.data.length = min limit (filtered.length - (page - 1) * limit) ∧
     r.pagination.page = page ∧
     r.pagination.limit = limit ∧
     r.pagination.total = filtered.length ∧
     r.pagination.totalPages = (filtered.length + limit - 1) / limit ∧
     r.pagination.total ≤ r.pagination.totalPages * limit ∧
     (1 ≤ r.pagination.total →
       (r.pagination.totalPages - 1) * limit < r.pagination.total)) ∧
    (BlogRepository.findAll (fun _ _ => false) db23 false
        ⟨some 3, some 10, none, none, none⟩).pagination.totalPages = 3 ∧
    (BlogRepository.findAll (fun _ _ => false) db23 false
        ⟨some 3, some 10, none, none, none⟩).pagination.total = 23 ∧
    (BlogRepository.findAll (fun _ _ => false) db23 false
        ⟨some 3, some 10, none, none, none⟩).data.length = 3 ∧
    (BlogRepository.findAll (fun _ _ => false) db23 false
        ⟨some 4, some 10, none, none, none⟩).data = [] ∧
    (BlogRepository.findAll (fun _ _ => false) db23 false
        ⟨some 4, some 10, none, none, none⟩).pagination.total = 23 := by
  have hceil := ceil_div_bounds
    (findAllFilter textMatch db (search.getD "")).length limit hl
  refine ⟨⟨rfl, ?_, rfl, rfl, rfl, rfl, hceil.1, hceil.2⟩,
          by decide, by decide, by decide, by decide, by decide⟩
  show (((insertionSortBy
      (blogLe (sortBy.getD "createdAt") (sortOrder.getD "desc"))
      (findAllFilter textMatch db (search.getD ""))).drop
        ((page - 1) * limit)).take limit).length = _
  rw [List.length_take, List.length_drop, length_insertionSortBy]

/-- Witness for C9: the concrete 23-document instance via the theorem. -/
theorem findAll_paginationArithmetic_witness :
    (BlogRepository.findAll (fun _ _ => false) db23 false
        ⟨some 3, some 10, none, none, none⟩).pagination.totalPages = 3 ∧
    (BlogRepository.findAll (fun _ _ => false) db23 false
        ⟨some 4, some 10, none, none, none⟩).data = [] :=
  ⟨(findAll_paginationArithmetic (fun _ _ => false) db23 3 10 none none none
      (by decide) (by decide)).2.1,
   (findAll_paginationArithmetic (fun _ _ => false) db23 4 10 none none none
      (by decide) (by decide)).2.2.2.2.1⟩

/-- How one stored post can evolve under one exposed mutating
operation: untouched, through one `$set` update, through one guarded
like push (only possible when the user had no like on it), through one
like pull, or through one view increment. -/
inductive PostStep (now : Nat) : IBlogPostEntity → IBlogPostEntity → Prop
  | same (p : IBlogPostEntity) : PostStep now p p
  | updated (p : IBlogPostEntity) (u : IUpdateBlogDto) :
      PostStep now p (applyUpdate p u)
  | liked (p : IBlogPostEntity) (uid : String)
      (hnew : ∀ l ∈ p.likes, l.user ≠ uid) :
      PostStep now p { p with likes := p.likes ++ [⟨uid, now⟩] }
  | unliked (p : IBlogPostEntity) (uid : String) :
      PostStep now p { p with likes := p.likes.filter (fun l => l.user ≠ uid) }
  | viewed (p : IBlogPostEntity) :
      PostStep now p { p with viewCount := p.viewCount + 1 }

/-- Any post in the store after updateById stems from a pre-state post,
either untouched or through one `$set` application. -/
theorem mem_updateById_fst {db : Store} {storeFail : Bool} {id : String}
    {u : IUpdateBlogDto} {q : IBlogPostEntity}
    (hq : q ∈ (BlogRepository.updateById db storeFail id u).1) :
    q ∈ db ∨ ∃ p, p ∈ db ∧ q = applyUpdate p u := by
  unfold BlogRepository.updateById at hq
  cases storeFail with
  | true => exact Or.inl hq
  | false =>
      simp only [Bool.false_eq_true, if_false] at hq
      cases hfind : List.find? (fun p => decide (p.id = id)) db with
      | none => rw [hfind] at hq; exact Or.inl hq
      | some b =>
          rw [hfind] at hq
          rw [show ((List.map (fun p => if p.id = id then applyUpdate p u
                else p) db, some (applyUpdate b u)).1)
              = List.map (fun p => if p.id = id then applyUpdate p u else p)
                  db from rfl, List.mem_map] at hq
          obtain ⟨p, hp, hfp⟩ := hq
          by_cases hid : p.id = id
          · rw [if_pos hid] at hfp
            exact Or.inr ⟨p, hp, hfp.symm⟩
          · rw [if_neg hid] at hfp
            exact Or.inl (hfp ▸ hp)

/-- Any post in the store after the guarded like push stems from a
pre-state post, untouched or with one new like by a user who had none
on it. -/
theorem mem_addLike_fst {db : Store} {storeFail : Bool} {now : Nat}
    {postId userId : String} {q : IBlogPostEntity}
    (hq : q ∈ (BlogRepository.addLike db storeFail now postId userId).1) :
    q ∈ db ∨ ∃ p, p ∈ db ∧ (∀ l ∈ p.likes, l.user ≠ userId) ∧
      q = { p with likes := p.likes ++ [⟨userId, now⟩] } := by
  unfold BlogRepository.addLike at hq
  cases storeFail with
  | true => exact Or.inl hq
  | false =>
      simp only [Bool.false_eq_true, if_false] at hq
      cases hfind : List.find? (BlogRepository.addLikeGuard postId userId) db with
      | none => rw [hfind] at hq; exact Or.inl hq
      | some b =>
          rw [hfind] at hq
          rw [show ((List.map (fun p =>
                  if BlogRepository.addLikeGuard postId userId p then
                    { p with likes := p.likes ++ [⟨userId, now⟩] }
                  else p) db, some true).1)
              = List.map (fun p =>
                  if BlogRepository.addLikeGuard postId userId p then
                    { p with likes := p.likes ++ [⟨userId, now⟩] }
                  else p) db from rfl, List.mem_map] at hq
          obtain ⟨p, hp, hfp⟩ := hq
          by_cases hg : BlogRepository.addLikeGuard postId userId p = true
          · rw [if_pos hg] at hfp
            refine Or.inr ⟨p, hp, ?_, hfp.symm⟩
            simp only [BlogRepository.addLikeGuard, Bool.and_eq_true,
              List.all_eq_true, decide_eq_true_eq] at hg
            intro l hl
            exact hg.2 l hl
          · rw [if_neg hg] at hfp
            exact Or.inl (hfp ▸ hp)

/-- Any post in the store after the guarded like pull stems from a
pre-state post, untouched or with the likes of one user removed. -/
theorem mem_removeLike_fst {db : Store} {storeFail : Bool}
    {postId userId : String} {q : IBlogPostEntity}
    (hq : q ∈ (BlogRepository.removeLike db storeFail postId userId).1) :
    q ∈ db ∨ ∃ p, p ∈ db ∧
      q = { p with likes := p.likes.filter (fun l => l.user ≠ userId) } := by
  unfold BlogRepository.removeLike at hq
  cases storeFail with
  | true => exact Or.inl hq
  | false =>
      simp only [Bool.false_eq_true, if_false] at hq
      cases hfind : List.find? (BlogRepository.removeLikeGuard postId userId) db with
      | none => rw [hfind] at hq; exact Or.inl hq
      | some b =>
          rw [hfind] at hq
          rw [show ((List.map (fun p =>
                  if BlogRepository.removeLikeGuard postId userId p then
                    { p with likes := p.likes.filter (fun l => l.user ≠ userId) }
                  else p) db, some true).1)
              = List.map (fun p =>
                  if BlogRepository.removeLikeGuard postId userId p then
                    { p with likes := p.likes.filter (fun l => l.user ≠ userId) }
                  else p) db from rfl, List.mem_map] at hq
          obtain ⟨p, hp, hfp⟩ := hq
          by_cases hg : BlogRepository.removeLikeGuard postId userId p = true
          · rw [if_pos hg] at hfp
            exact Or.inr ⟨p, hp, hfp.symm⟩
          · rw [if_neg hg] at hfp
            exact Or.inl (hfp ▸ hp)

/-- Any post in the store after the view increment stems from a
pre-state post, untouched or with viewCount bumped by one. -/
theorem mem_incrementViewCount_fst {db : Store} {storeFail : Bool}
    {id : String} {q : IBlogPostEntity}
    (hq : q ∈ (BlogRepository.incrementViewCount db storeFail id).1) :
    q ∈ db ∨ ∃ p, p ∈ db ∧ q = { p with viewCount := p.viewCount + 1 } := by
  unfold BlogRepository.incrementViewCount at hq
  cases storeFail with
  | true => exact Or.inl hq
  | false =>
      simp only [Bool.false_eq_true, if_false] at hq
      cases hfind : List.find? (fun p => decide (p.id = id)) db with
      | none => rw [hfind] at hq; exact Or.inl hq
      | some b =>
          rw [hfind] at hq
          rw [show ((List.map (fun p =>
                  if p.id = id then { p with viewCount := p.viewCount + 1 }
                  else p) db, some true).1)
              = List.map (fun p =>
                  if p.id = id then { p with viewCount := p.viewCount + 1 }
                  else p) db from rfl, List.mem_map] at hq
          obtain ⟨p, hp, hfp⟩ := hq
          by_cases hid : p.id = id
          · rw [if_pos hid] at hfp
            exact Or.inr ⟨p, hp, hfp.symm⟩
          · rw [if_neg hid] at hfp
            exact Or.inl (hfp ▸ hp)

/-- Any post in the store after deleteById was already in the
pre-state store. -/
theorem mem_deleteById_fst {db : Store} {storeFail : Bool} {id : String}
    {q : IBlogPostEntity}
    (hq : q ∈ (BlogRepository.deleteById db storeFail id).1) : q ∈ db := by
  unfold BlogRepository.deleteById at hq
  cases storeFail with
  | true => exact hq
  | false =>
      simp only [Bool.false_eq_true, if_false] at hq
      cases hfind : List.find? (fun p => decide (p.id = id)) db with
      | none => rw [hfind] at hq; exact hq
      | some b =>
          rw [hfind] at hq
          exact List.mem_of_mem_filter hq

/-- Any post in the store after one exposed mutating service operation
stems from a pre-state post through one PostStep. -/
theorem applyOp_mem (op : BlogOp) (db : Store) (storeFail : Bool)
    (now : Nat) {q : IBlogPostEntity}
    (hq : q ∈ applyOp db storeFail now op) :
    ∃ p, p ∈ db ∧ PostStep now p q := by
  cases op with
  | update id dto =>
      simp only [applyOp] at hq
      unfold BlogService.update at hq
      by_cases h1 : id = ""
      · rw [if_pos h1] at hq; exact ⟨q, hq, .same q⟩
      · rw [if_neg h1] at hq
        by_cases h2 : dto.keysCount = 0
        · rw [if_pos h2] at hq; exact ⟨q, hq, .same q⟩
        · rw [if_neg h2] at hq
          cases hf : BlogRepository.findById db id with
          | none => rw [hf] at hq; exact ⟨q, hq, .same q⟩
          | some p0 =>
              rw [hf] at hq
              have hq2 : q ∈ (BlogRepository.updateById db storeFail id dto).1 := by
                rcases hr : BlogRepository.updateById db storeFail id dto with ⟨db2, e⟩
                rw [hr] at hq
                cases e <;> exact hq
              rcases mem_updateById_fst hq2 with h | ⟨p, hp, rfl⟩
              · exact ⟨q, h, .same q⟩
              · exact ⟨p, hp, .updated p dto⟩
  | delete id =>
      simp only [applyOp] at hq
      unfold BlogService.delete at hq
      have hq2 : q ∈ (BlogRepository.deleteById db storeFail id).1 := by
        by_cases hc : (BlogRepository.deleteById db storeFail id).2 = true
        · simp only [hc] at hq
          simpa using hq
        · simp only [Bool.not_eq_true] at hc
          simp only [hc] at hq
          simpa using hq
      exact ⟨q, mem_deleteById_fst hq2, .same q⟩
  | incrementViewCount id =>
      simp only [applyOp] at hq
      unfold BlogService.incrementViewCount at hq
      have hq2 : q ∈ (BlogRepository.incrementViewCount db storeFail id).1 := by
        rcases hr : BlogRepository.incrementViewCount db storeFail id with ⟨db2, ob⟩
        rw [hr] at hq
        rcases ob with _ | b
        · exact hq
        · cases b <;> exact hq
      rcases mem_incrementViewCount_fst hq2 with h | ⟨p, hp, rfl⟩
      · exact ⟨q, h, .same q⟩
      · exact ⟨p, hp, .viewed p⟩
  | addLike postId userId =>
      simp only [applyOp] at hq
      unfold BlogService.addLike at hq
      cases hf : BlogRepository.findById db postId with
      | none => rw [hf] at hq; exact ⟨q, hq, .same q⟩
      | some p0 =>
          rw [hf] at hq
          have hq2 : q ∈ (BlogRepository.addLike db storeFail now postId userId).1 := by
            by_cases hc : (BlogRepository.addLike db storeFail now postId userId).2 = some true
            · simp only [hc] at hq
              simpa using hq
            · simp only [if_pos (show (BlogRepository.addLike db storeFail now postId userId).2 ≠ some true from hc)] at hq
              exact hq
          rcases mem_addLike_fst hq2 with h | ⟨p, hp, hnew, rfl⟩
          · exact ⟨q, h, .same q⟩
          · exact ⟨p, hp, .liked p userId hnew⟩
  | removeLike postId userId =>
      simp only [applyOp] at hq
      unfold BlogService.removeLike at hq
      cases hf : BlogRepository.findById db postId with
      | none => rw [hf] at hq; exact ⟨q, hq, .same q⟩
      | some p0 =>
          rw [hf] at hq
          have hq2 : q ∈ (BlogRepository.removeLike db storeFail postId userId).1 := by
            by_cases hc : (BlogRepository.removeLike db storeFail postId userId).2 = some true
            · simp only [hc] at hq
              simpa using hq
            · simp only [if_pos (show (BlogRepository.removeLike db storeFail postId userId).2 ≠ some true from hc)] at hq
              exact hq
          rcases mem_removeLike_fst hq2 with h | ⟨p, hp, rfl⟩
          · exact ⟨q, h, .same q⟩
          · exact ⟨p, hp, .unliked p userId⟩
  | schedule postId d =>
      simp only [applyOp] at hq
      unfold BlogService.schedule at hq
      by_cases h1 : d ≤ now
      · rw [if_pos h1] at hq; exact ⟨q, hq, .same q⟩
      · rw [if_neg h1] at hq
        cases hf : BlogRepository.findById db postId with
        | none => rw [hf] at hq; exact ⟨q, hq, .same q⟩
        | some p0 =>
            rw [hf] at hq
            have hq2 : q ∈ (BlogRepository.schedule db storeFail postId d).1 := by
              rcases hr : BlogRepository.schedule db storeFail postId d with ⟨db2, e⟩
              rw [hr] at hq
              cases e <;> exact hq
            rcases mem_updateById_fst hq2 with h | ⟨p, hp, rfl⟩
            · exact ⟨q, h, .same q⟩
            · exact ⟨p, hp, .updated p _⟩
  | publish postId =>
      simp only [applyOp] at hq
      unfold BlogService.publish at hq
      cases hf : BlogRepository.findById db postId with
      | none => rw [hf] at hq; exact ⟨q, hq, .same q⟩
      | some p0 =>
          simp only [hf] at hq
          by_cases h1 : p0.status = IBlogPostStatus.published
          · rw [if_pos h1] at hq; exact ⟨q, hq, .same q⟩
          · rw [if_neg h1] at hq
            have hq2 : q ∈ (BlogRepository.publish db storeFail now postId).1 := by
              rcases hr : BlogRepository.publish db storeFail now postId with ⟨db2, e⟩
              rw [hr] at hq
              cases e <;> exact hq
            rcases mem_updateById_fst hq2 with h | ⟨p, hp, rfl⟩
            · exact ⟨q, h, .same q⟩
            · exact ⟨p, hp, .updated p _⟩
  | archive postId =>
      simp only [applyOp] at hq
      unfold BlogService.archive at hq
      cases hf : BlogRepository.findById db postId with
      | none => rw [hf] at hq; exact ⟨q, hq, .same q⟩
      | some p0 =>
          rw [hf] at hq
          have hq2 : q ∈ (BlogRepository.archive db storeFail postId).1 := by
            rcases hr : BlogRepository.archive db storeFail postId with ⟨db2, e⟩
            rw [hr] at hq
            cases e <;> exact hq
          rcases mem_updateById_fst hq2 with h | ⟨p, hp, rfl⟩
          · exact ⟨q, h, .same q⟩
          · exact ⟨p, hp, .updated p _⟩

/-- No post evolution step changes the id. -/
theorem PostStep.id_eq {now : Nat} {p q : IBlogPostEntity}
    (h : PostStep now p q) : q.id = p.id := by
  cases h <;> rfl

/-- No post evolution step changes the slug: in particular one `$set`
application keeps it, the schema having marked it immutable. -/
theorem PostStep.slug_eq {now : Nat} {p q : IBlogPostEntity}
    (h : PostStep now p q) : q.slug = p.slug := by
  cases h <;> rfl

/-- A post has at most one like entry per user. -/
abbrev likesUniquePerUser (p : IBlogPostEntity) : Prop :=
  (p.likes.map (fun l => l.user)).Nodup

/-- Every post of the store has at most one like entry per user. -/
abbrev storeInv (db : Store) : Prop := ∀ p ∈ db, likesUniquePerUser p

/-- Every post evolution step preserves per-user like uniqueness; the
guarded like push may only fire on a post the user had not liked. -/
theorem PostStep.likes_nodup {now : Nat} {p q : IBlogPostEntity}
    (h : PostStep now p q) (hp : likesUniquePerUser p) :
    likesUniquePerUser q := by
  cases h with
  | same => exact hp
  | updated u => exact hp
  | liked uid hnew =>
      unfold likesUniquePerUser
      simp only [List.map_append, List.map_cons, List.map_nil]
      rw [List.nodup_append]
      refine ⟨hp, List.nodup_singleton _, ?_⟩
      intro a ha hb
      simp only [List.mem_singleton] at hb
      subst hb
      rw [List.mem_map] at ha
      obtain ⟨l, hl, hlu⟩ := ha
      exact hnew l hl hlu
  | unliked uid =>
      exact hp.sublist ((List.filter_sublist _).map _)
  | viewed => exact hp

/-- Any post in the store after the service create stems from the
pre-state store or is the freshly inserted document, whose likes list
the schema defaults to empty. -/
theorem mem_create_fst {db : Store} {storeFail : Bool} {newId : String}
    {now : Nat} {data : ICreateBlogDto} {q : IBlogPostEntity}
    (hq : q ∈ (BlogService.create db storeFail newId now data).1) :
    q ∈ db ∨ q.likes = [] := by
  simp only [BlogService.create] at hq
  by_cases h1 : data.title = "" ∨ data.content = ""
  · rw [if_pos h1] at hq; exact Or.inl hq
  · rw [if_neg h1] at hq
    rcases hr : BlogRepository.create db storeFail newId now
        { data with
          slug := some (data.slug.getD (slugify data.title))
          status := some (data.status.getD IBlogPostStatus.draft)
          visibility := some (data.visibility.getD IBlogPostVisibility.public) }
      with ⟨db2, e⟩
    rw [hr] at hq
    have hq2 : q ∈ (BlogRepository.create db storeFail newId now
        { data with
          slug := some (data.slug.getD (slugify data.title))
          status := some (data.status.getD IBlogPostStatus.draft)
          visibility :=
            some (data.visibility.getD IBlogPostVisibility.public) }).1 := by
      rw [hr]
      cases e <;> exact hq
    unfold BlogRepository.create at hq2
    split at hq2
    · exact Or.inl hq2
    · rcases List.mem_append.mp hq2 with h | h
      · exact Or.inl h
      · right
        simp only [List.mem_singleton] at h
        rw [h]

/-- C3: the slug never changes after creation: a single `$set` update
application leaves id and slug unchanged regardless of the payload
(even one containing a slug field — the schema marks slug immutable so
the ODM strips it), and every post in the store after any exposed
mutating operation keeps the id and slug of the pre-state post it stems
from. -/
theorem slug_immutable (op : BlogOp) (db : Store) (storeFail : Bool)
    (now : Nat) :
    (∀ b u, (applyUpdate b u).id = b.id ∧ (applyUpdate b u).slug = b.slug) ∧
    (∀ q ∈ applyOp db storeFail now op,
      ∃ p, p ∈ db ∧ q.id = p.id ∧ q.slug = p.slug) := by
  refine ⟨fun b u => ⟨rfl, rfl⟩, fun q hq => ?_⟩
  obtain ⟨p, hp, hstep⟩ := applyOp_mem op db storeFail now hq
  exact ⟨p, hp, hstep.id_eq, hstep.slug_eq⟩

/-- Witness for C3: an update payload that tries to set the slug leaves
it unchanged on the stored post. -/
theorem slug_immutable_witness :
    (applyUpdate (samplePost "p1" "s1" IBlogPostStatus.draft)
        { slug := some "changed-slug" }).slug = "s1" ∧
    (∃ p, p ∈ [samplePost "p1" "s1" IBlogPostStatus.draft] ∧
      (applyUpdate (samplePost "p1" "s1" IBlogPostStatus.draft)
          { slug := some "changed-slug" }).id = p.id ∧
      (applyUpdate (samplePost "p1" "s1" IBlogPostStatus.draft)
          { slug := some "changed-slug" }).slug = p.slug) := by
  constructor
  · exact ((slug_immutable (BlogOp.archive "p1") [] false 0).1
      (samplePost "p1" "s1" IBlogPostStatus.draft)
      { slug := some "changed-slug" }).2
  · exact (slug_immutable (BlogOp.update "p1" { slug := some "changed-slug" })
      [samplePost "p1" "s1" IBlogPostStatus.draft] false 0).2
      (applyUpdate (samplePost "p1" "s1" IBlogPostStatus.draft)
        { slug := some "changed-slug" }) (by decide)

/-- C4: every exposed operation preserves the at-most-one-like-per-user
invariant: all exposed mutating operations preserve the store-wide
invariant, creation inserts a post with an empty likes list, and
addLike on a post every copy of which is already liked by the user
applies no update and yields Conflict with the store unchanged. -/
theorem likes_uniquePerUser_invariant (db : Store) (storeFail : Bool)
    (now : Nat) :
    (∀ op : BlogOp, storeInv db → storeInv (applyOp db storeFail now op)) ∧
    (∀ newId data, storeInv db →
      storeInv (BlogService.create db storeFail newId now data).1) ∧
    (∀ postId userId p, BlogRepository.findById db postId = some p →
      (∀ r ∈ db, r.id = postId → ∃ l ∈ r.likes, l.user = userId) →
      BlogService.addLike db false now postId userId =
        (db, .error ⟨"Blog already liked", 409, ErrorCode.CONFLICT⟩)) := by
  refine ⟨?_, ?_, ?_⟩
  · intro op hinv q hq
    obtain ⟨p, hp, hstep⟩ := applyOp_mem op db storeFail now hq
    exact hstep.likes_nodup (hinv p hp)
  · intro newId data hinv q hq
    rcases mem_create_fst hq with h | h
    · exact hinv q h
    · unfold likesUniquePerUser
      rw [h]
      exact List.nodup_nil
  · intro postId userId p hfind hall
    have hg : List.find? (BlogRepository.addLikeGuard postId userId) db
        = none := by
      rw [List.find?_eq_none]
      intro x hx hguard
      simp only [BlogRepository.addLikeGuard, Bool.and_eq_true,
        List.all_eq_true, decide_eq_true_eq] at hguard
      obtain ⟨hid, hforall⟩ := hguard
      obtain ⟨l, hl, hlu⟩ := hall x hx hid
      exact hforall l hl hlu
    simp [BlogService.addLike, hfind, BlogRepository.addLike, hg]

/-- Witness for C4: the doubly liked scenario on a concrete store. -/
theorem likes_uniquePerUser_invariant_witness :
    storeInv (applyOp [likedPost] false 9 (BlogOp.addLike "p1" "u1")) ∧
    BlogService.addLike [likedPost] false 9 "p1" "u1" =
      ([likedPost], .error ⟨"Blog already liked", 409, ErrorCode.CONFLICT⟩) := by
  constructor
  · exact (likes_uniquePerUser_invariant [likedPost] false 9).1
      (BlogOp.addLike "p1" "u1") (by decide)
  · exact (likes_uniquePerUser_invariant [likedPost] false 9).2.2
      "p1" "u1" likedPost (by decide) (by decide)
